import Mathlib

/-!
Verification of the `m.room.message` content-union and relation-transform
layer of the ruma-events crate (`src/ruma-events/src/room/message.rs` and
`src/ruma-events/src/relation.rs`).

JSON values are modelled as a tree; objects are key-sorted association
lists, mirroring the source's JSON map type (a `BTreeMap` keyed by the
field name), so object equality here is exactly JSON-value equality in the
source's tests. Encoders mirror the serde `Serialize` derives (with
`skip_serializing_if`/`flatten`/`rename` attributes expanded); decoders
mirror the serde `Deserialize` derives, including the internally-tagged
dispatch on `msgtype` and the flatten buffering of leftover fields.
-/

namespace RumaEvents

/-- A JSON value. Numbers are integers, which covers every numeric field of
the module (the source's numeric fields are bounded-integer newtypes). -/
inductive Json where
  | null
  | bool (b : Bool)
  | num (n : Int)
  | str (s : String)
  | arr (elems : List Json)
  | obj (fields : List (String × Json))

/-- Lexicographic codepoint order on strings, the order of the source's
JSON object map keys (UTF-8 byte order coincides with codepoint order). -/
def charsLt (a b : List Char) : Bool :=
  match a, b with
  | [], [] => false
  | [], _ :: _ => true
  | _ :: _, [] => false
  | c :: as, d :: bs =>
    if c.toNat < d.toNat then true
    else if d.toNat < c.toNat then false
    else charsLt as bs

/-- Key order for JSON object maps. -/
def keyLt (a b : String) : Bool :=
  charsLt a.data b.data

/-- First value bound to key `k`, as in a JSON map lookup. -/
def lookupField (fields : List (String × Json)) (k : String) : Option Json :=
  match fields with
  | [] => none
  | (k2, v) :: rest => if k2 = k then some v else lookupField rest k

/-- Insert a binding into a key-sorted association list, replacing an equal
key, as insertion into the source's ordered JSON map does. -/
def insertField (kv : String × Json) (l : List (String × Json)) :
    List (String × Json) :=
  match l with
  | [] => [kv]
  | (k2, v2) :: rest =>
    if keyLt kv.1 k2 then kv :: (k2, v2) :: rest
    else if kv.1 = k2 then kv :: rest
    else (k2, v2) :: insertField kv rest

/-- Key-sort an association list (the canonical form of a JSON object). -/
def sortFields (l : List (String × Json)) : List (String × Json) :=
  l.foldr insertField []

/-- Build a JSON object in canonical (key-sorted) form. -/
def mkObj (l : List (String × Json)) : Json :=
  Json.obj (sortFields l)

/-- Whether a JSON value is `null`. -/
def isNull (v : Json) : Bool :=
  match v with
  | .null => true
  | _ => false

/-- An optional field: absent options contribute no binding at all. -/
def optField (k : String) (v : Option Json) : List (String × Json) :=
  match v with
  | none => []
  | some j => [(k, j)]

/-- The decode error of the module: the input's shape does not fit. -/
inductive SchemaError where
  | notAnObject
  | missingTag
  | tagNotString
  | unknownTag (tag : String)
  | missingField (field : String)
  | invalidField (field : String)

/-! ### Relation transform

The logical `Relation` enum and the `From` conversions to and from the wire
enum `RelatesToJsonRepr` are embedded from `room/message.rs` (lines 69-125).
The wire enum itself and its JSON codec live in the `relationships` module,
which is outside the provided sources, so they are modelled from the spec.
-/

/-- Information about another message being replied to
(`relationships::InReplyTo`; the event id is an opaque validated string). -/
structure InReplyTo where
  event_id : String

/-- Modelled from the spec: the `relationships::Annotation` payload, an
event id plus the reaction key (`rel_type = "m.annotation"` on the wire). -/
structure Annot where
  event_id : String
  key : String

/-- Modelled from the spec: the `relationships::Reference` payload
(`rel_type = "m.reference"` on the wire). -/
structure Reference where
  event_id : String

/-- Modelled from the spec: the `relationships::Replacement` payload
(`rel_type = "m.replace"` on the wire). -/
structure Replacement where
  event_id : String

/-- Modelled from the spec: the `relationships::RelationJsonRepr` wire enum
grouping the `rel_type`-discriminated relation shapes. -/
inductive RelationJsonRepr where
  | ann (a : Annot)
  | reference (r : Reference)
  | replacement (r : Replacement)

/-- Modelled from the spec: the `relationships::RelatesToJsonRepr` wire enum:
a `rel_type`-discriminated shape, the legacy reply shape keyed by
`m.in_reply_to`, or an unrecognized payload held verbatim. -/
inductive RelatesToJsonRepr where
  | relation (r : RelationJsonRepr)
  | reply (in_reply_to : InReplyTo)
  | custom (v : Json)

/-- The logical relation enum of `room/message.rs` (lines 71-93), with the
`unstable-pre-spec` variants included. -/
inductive Relation where
  | reference (r : Reference)
  | ann (a : Annot)
  | replacement (r : Replacement)
  | reply (in_reply_to : InReplyTo)
  | custom (v : Json)

/-- `impl From<Relation> for RelatesToJsonRepr` (`room/message.rs` 95-110). -/
def relationToRepr (value : Relation) : RelatesToJsonRepr :=
  match value with
  | .ann r => RelatesToJsonRepr.relation (RelationJsonRepr.ann r)
  | .reference r => RelatesToJsonRepr.relation (RelationJsonRepr.reference r)
  | .replacement r => RelatesToJsonRepr.relation (RelationJsonRepr.replacement r)
  | .reply i => RelatesToJsonRepr.reply i
  | .custom c => RelatesToJsonRepr.custom c

/-- `impl From<RelatesToJsonRepr> for Relation` (`room/message.rs` 112-125). -/
def reprToRelation (value : RelatesToJsonRepr) : Relation :=
  match value with
  | .relation r =>
    match r with
    | .ann a => Relation.ann a
    | .reference r => Relation.reference r
    | .replacement r => Relation.replacement r
  | .reply i => Relation.reply i
  | .custom v => Relation.custom v

/-- Modelled from the spec: parse the `m.in_reply_to` payload, an object
holding the replied-to `event_id` string. -/
def parseInReplyTo (v : Json) : Option InReplyTo :=
  match v with
  | .obj fs =>
    match lookupField fs "event_id" with
    | some (.str s) => some ⟨s⟩
    | _ => none
  | _ => none

/-- Modelled from the spec: serialization of the wire enum. A reply is
`{"m.in_reply_to": {"event_id": ...}}`, a `rel_type`-discriminated shape
carries `rel_type` and `event_id` (plus `key` for annotations), and an
unrecognized payload is re-emitted verbatim. -/
def wireToJson (r : RelatesToJsonRepr) : Json :=
  match r with
  | .reply i => mkObj [("m.in_reply_to", mkObj [("event_id", .str i.event_id)])]
  | .relation (.ann a) =>
    mkObj [("rel_type", .str "m.annotation"), ("event_id", .str a.event_id),
           ("key", .str a.key)]
  | .relation (.reference r) =>
    mkObj [("rel_type", .str "m.reference"), ("event_id", .str r.event_id)]
  | .relation (.replacement r) =>
    mkObj [("rel_type", .str "m.replace"), ("event_id", .str r.event_id)]
  | .custom v => v

/-- Modelled from the spec: total recognition of a wire relation value.
The `m.in_reply_to` key is checked first, then the `rel_type`-discriminated
shapes; anything else is held verbatim as `custom`. -/
def jsonToWire (v : Json) : RelatesToJsonRepr :=
  match v with
  | .obj fs =>
    match lookupField fs "m.in_reply_to" with
    | some irt =>
      match parseInReplyTo irt with
      | some i => RelatesToJsonRepr.reply i
      | none => RelatesToJsonRepr.custom v
    | none =>
      match lookupField fs "rel_type", lookupField fs "event_id" with
      | some (.str "m.annotation"), some (.str e) =>
        match lookupField fs "key" with
        | some (.str k) => RelatesToJsonRepr.relation (RelationJsonRepr.ann ⟨e, k⟩)
        | _ => RelatesToJsonRepr.custom v
      | some (.str "m.reference"), some (.str e) =>
        RelatesToJsonRepr.relation (RelationJsonRepr.reference ⟨e⟩)
      | some (.str "m.replace"), some (.str e) =>
        RelatesToJsonRepr.relation (RelationJsonRepr.replacement ⟨e⟩)
      | _, _ => RelatesToJsonRepr.custom v
  | _ => RelatesToJsonRepr.custom v

/-- Whether a JSON value is recognized as one of the known wire relation
shapes (so that decoding it does not fall back to `custom`). -/
def recognizedRel (v : Json) : Bool :=
  match jsonToWire v with
  | .custom _ => false
  | _ => true

/-- `encode_relation`: serde serialization of `Relation` goes through the
wire enum (`#[serde(into = "RelatesToJsonRepr")]`, `room/message.rs` 70). -/
def encodeRelation (r : Relation) : Json :=
  wireToJson (relationToRepr r)

/-- `decode_relation`: serde deserialization of `Relation` goes through the
wire enum (`#[serde(from = "RelatesToJsonRepr")]`, `room/message.rs` 70). -/
def decodeRelation (v : Json) : Relation :=
  reprToRelation (jsonToWire v)

/-- A `Relation` value is canonical when a `custom` payload is not itself
recognized as a known wire shape (such a value cannot be produced by
decoding, since recognition would have picked the known variant). -/
def wfRelation (r : Relation) : Bool :=
  match r with
  | .custom v => !isNull v && !recognizedRel v
  | _ => true

/-! ### String enums and content payload types (`room/message.rs`) -/

/-- `MessageFormat` (`room/message.rs` 383-391): a string enum with a hidden
catch-all `_Custom` variant holding an arbitrary string. -/
inductive MessageFormat where
  | html
  | custom (s : String)

/-- String representation of a `MessageFormat` (its `as_str`). -/
def MessageFormat.toStr (m : MessageFormat) : String :=
  match m with
  | .html => "org.matrix.custom.html"
  | .custom s => s

/-- Deserialization of a `MessageFormat` from its string form: a known
string yields the known variant, anything else the catch-all. -/
def MessageFormat.fromStr (s : String) : MessageFormat :=
  if s = "org.matrix.custom.html" then .html else .custom s

/-- Canonicity: the hidden catch-all never holds the known string (such a
value is unreachable through deserialization or the public constructors). -/
def MessageFormat.wf (m : MessageFormat) : Bool :=
  match m with
  | .html => true
  | .custom s => s != "org.matrix.custom.html"

/-- `ServerNoticeType` (`room/message.rs` 354-362). -/
inductive ServerNoticeType where
  | usageLimitReached
  | custom (s : String)

/-- String representation of a `ServerNoticeType`. -/
def ServerNoticeType.toStr (t : ServerNoticeType) : String :=
  match t with
  | .usageLimitReached => "m.server_notice.usage_limit_reached"
  | .custom s => s

/-- Deserialization of a `ServerNoticeType` from its string form. -/
def ServerNoticeType.fromStr (s : String) : ServerNoticeType :=
  if s = "m.server_notice.usage_limit_reached" then .usageLimitReached
  else .custom s

/-- Canonicity of the hidden catch-all of `ServerNoticeType`. -/
def ServerNoticeType.wf (t : ServerNoticeType) : Bool :=
  match t with
  | .usageLimitReached => true
  | .custom s => s != "m.server_notice.usage_limit_reached"

/-- `LimitType` (`room/message.rs` 365-376, `rename_all = "snake_case"`). -/
inductive LimitType where
  | monthlyActiveUser
  | custom (s : String)

/-- String representation of a `LimitType`. -/
def LimitType.toStr (t : LimitType) : String :=
  match t with
  | .monthlyActiveUser => "monthly_active_user"
  | .custom s => s

/-- Deserialization of a `LimitType` from its string form. -/
def LimitType.fromStr (s : String) : LimitType :=
  if s = "monthly_active_user" then .monthlyActiveUser else .custom s

/-- Canonicity of the hidden catch-all of `LimitType`. -/
def LimitType.wf (t : LimitType) : Bool :=
  match t with
  | .monthlyActiveUser => true
  | .custom s => s != "monthly_active_user"

/-- `FormattedBody` (`room/message.rs` 402-410): format identifier plus the
formatted text, serialized under the keys `format` and `formatted_body`. -/
structure FormattedBody where
  format : MessageFormat
  body : String

/-- `FormattedBody::html` (`room/message.rs` 412-417). -/
def FormattedBody.html (body : String) : FormattedBody :=
  ⟨MessageFormat.html, body⟩

/-- Modelled from the spec: `EncryptedFile`, an external collaborator of
this module (its definition is outside the provided sources), consumed as
an opaque structured JSON block. -/
structure EncryptedFile where
  data : Json

/-- Modelled from the spec: `ImageInfo`, an opaque media-info block defined
outside the provided sources. -/
structure ImageInfo where
  data : Json

/-- Modelled from the spec: `ThumbnailInfo`, an opaque media-info block
defined outside the provided sources. -/
structure ThumbnailInfo where
  data : Json

/-- `AudioInfo` (`room/message.rs` 170-183). -/
structure AudioInfo where
  duration : Option Nat
  mimetype : Option String
  size : Option Nat

/-- `FileInfo` (`room/message.rs` 222-243). -/
structure FileInfo where
  mimetype : Option String
  size : Option Nat
  thumbnail_info : Option ThumbnailInfo
  thumbnail_url : Option String
  thumbnail_file : Option EncryptedFile

/-- `LocationInfo` (`room/message.rs` 282-297). -/
structure LocationInfo where
  thumbnail_info : Option ThumbnailInfo
  thumbnail_url : Option String
  thumbnail_file : Option EncryptedFile

/-- `VideoInfo` (`room/message.rs` 479-515); `height` and `width` are
serialized under the keys `h` and `w`. -/
structure VideoInfo where
  duration : Option Nat
  height : Option Nat
  width : Option Nat
  mimetype : Option String
  size : Option Nat
  thumbnail_info : Option ThumbnailInfo
  thumbnail_url : Option String
  thumbnail_file : Option EncryptedFile

/-- `AudioMessageEventContent` (`room/message.rs` 150-167). -/
structure AudioMessageEventContent where
  body : String
  info : Option AudioInfo
  url : Option String
  file : Option EncryptedFile

/-- `EmoteMessageEventContent` (`room/message.rs` 186-194); `formatted` is
flattened into the containing object. -/
structure EmoteMessageEventContent where
  body : String
  formatted : Option FormattedBody

/-- `FileMessageEventContent` (`room/message.rs` 197-219). -/
structure FileMessageEventContent where
  body : String
  filename : Option String
  info : Option FileInfo
  url : Option String
  file : Option EncryptedFile

/-- `ImageMessageEventContent` (`room/message.rs` 246-264). -/
structure ImageMessageEventContent where
  body : String
  info : Option ImageInfo
  url : Option String
  file : Option EncryptedFile

/-- `LocationMessageEventContent` (`room/message.rs` 267-279): `body` and
`geo_uri` are required, `info` is optional. -/
structure LocationMessageEventContent where
  body : String
  geo_uri : String
  info : Option LocationInfo

/-- `NoticeMessageEventContent` (`room/message.rs` 300-313); `formatted` is
flattened, `relates_to` is serialized under `m.relates_to`. -/
structure NoticeMessageEventContent where
  body : String
  formatted : Option FormattedBody
  relates_to : Option Relation

/-- `ServerNoticeMessageEventContent` (`room/message.rs` 332-351). -/
structure ServerNoticeMessageEventContent where
  body : String
  server_notice_type : ServerNoticeType
  admin_contact : Option String
  limit_type : Option LimitType

/-- `TextMessageEventContent` (`room/message.rs` 420-433); `formatted` is
flattened, `relates_to` is serialized under `m.relates_to`. -/
structure TextMessageEventContent where
  body : String
  formatted : Option FormattedBody
  relates_to : Option Relation

/-- `TextMessageEventContent::plain` (`room/message.rs` 435-439). -/
def TextMessageEventContent.plain (body : String) : TextMessageEventContent :=
  ⟨body, none, none⟩

/-- `TextMessageEventContent::html` (`room/message.rs` 441-448). -/
def TextMessageEventContent.html (body html_body : String) :
    TextMessageEventContent :=
  ⟨body, some (FormattedBody.html html_body), none⟩

/-- `TextMessageEventContent::new_plain` (`room/message.rs` 450-455), the
deprecated constructor, which delegates to `plain`. -/
def TextMessageEventContent.new_plain (body : String) :
    TextMessageEventContent :=
  TextMessageEventContent.plain body

/-- `VideoMessageEventContent` (`room/message.rs` 457-476). -/
structure VideoMessageEventContent where
  body : String
  info : Option VideoInfo
  url : Option String
  file : Option EncryptedFile

/-- `MessageEventContent` (`room/message.rs` 25-65): the internally-tagged
content union, discriminated by the `msgtype` field. -/
inductive MessageEventContent where
  | audio (c : AudioMessageEventContent)
  | emote (c : EmoteMessageEventContent)
  | file (c : FileMessageEventContent)
  | image (c : ImageMessageEventContent)
  | location (c : LocationMessageEventContent)
  | notice (c : NoticeMessageEventContent)
  | serverNotice (c : ServerNoticeMessageEventContent)
  | text (c : TextMessageEventContent)
  | video (c : VideoMessageEventContent)

/-! ### Encoding (the serde `Serialize` derives, attributes expanded) -/

/-- An optional string field (`skip_serializing_if = "Option::is_none"`). -/
def optStr (k : String) (o : Option String) : List (String × Json) :=
  optField k (o.map Json.str)

/-- An optional unsigned-integer field (`skip_serializing_if` likewise). -/
def optNum (k : String) (o : Option Nat) : List (String × Json) :=
  optField k (o.map (fun n => Json.num (Int.ofNat n)))

/-- The two top-level fields contributed by a flattened
`Option<FormattedBody>`: nothing when absent, `format` and `formatted_body`
hoisted into the parent object when present. -/
def formattedFields (o : Option FormattedBody) : List (String × Json) :=
  match o with
  | none => []
  | some fb => [("format", .str fb.format.toStr), ("formatted_body", .str fb.body)]

/-- The `m.relates_to` field: omitted when absent, the wire form of the
relation when present. -/
def relatesField (o : Option Relation) : List (String × Json) :=
  optField "m.relates_to" (o.map encodeRelation)

/-- Serialization of `AudioInfo`. -/
def encodeAudioInfo (i : AudioInfo) : Json :=
  mkObj (optNum "duration" i.duration ++ optStr "mimetype" i.mimetype ++
    optNum "size" i.size)

/-- Serialization of `FileInfo`. -/
def encodeFileInfo (i : FileInfo) : Json :=
  mkObj (optStr "mimetype" i.mimetype ++ optNum "size" i.size ++
    optField "thumbnail_info" (i.thumbnail_info.map ThumbnailInfo.data) ++
    optStr "thumbnail_url" i.thumbnail_url ++
    optField "thumbnail_file" (i.thumbnail_file.map EncryptedFile.data))

/-- Serialization of `LocationInfo`. -/
def encodeLocationInfo (i : LocationInfo) : Json :=
  mkObj (optField "thumbnail_info" (i.thumbnail_info.map ThumbnailInfo.data) ++
    optStr "thumbnail_url" i.thumbnail_url ++
    optField "thumbnail_file" (i.thumbnail_file.map EncryptedFile.data))

/-- Serialization of `VideoInfo` (`height`/`width` renamed to `h`/`w`). -/
def encodeVideoInfo (i : VideoInfo) : Json :=
  mkObj (optNum "duration" i.duration ++ optNum "h" i.height ++
    optNum "w" i.width ++ optStr "mimetype" i.mimetype ++
    optNum "size" i.size ++
    optField "thumbnail_info" (i.thumbnail_info.map ThumbnailInfo.data) ++
    optStr "thumbnail_url" i.thumbnail_url ++
    optField "thumbnail_file" (i.thumbnail_file.map EncryptedFile.data))

/-- Serialization of the content union (`#[serde(tag = "msgtype")]`): the
discriminator plus the selected variant's fields, spread into one object. -/
def encodeContent (c : MessageEventContent) : Json :=
  match c with
  | .audio a =>
    mkObj ([("msgtype", .str "m.audio"), ("body", .str a.body)] ++
      optField "info" (a.info.map encodeAudioInfo) ++ optStr "url" a.url ++
      optField "file" (a.file.map EncryptedFile.data))
  | .emote e =>
    mkObj ([("msgtype", .str "m.emote"), ("body", .str e.body)] ++
      formattedFields e.formatted)
  | .file f =>
    mkObj ([("msgtype", .str "m.file"), ("body", .str f.body)] ++
      optStr "filename" f.filename ++
      optField "info" (f.info.map encodeFileInfo) ++ optStr "url" f.url ++
      optField "file" (f.file.map EncryptedFile.data))
  | .image i =>
    mkObj ([("msgtype", .str "m.image"), ("body", .str i.body)] ++
      optField "info" (i.info.map ImageInfo.data) ++ optStr "url" i.url ++
      optField "file" (i.file.map EncryptedFile.data))
  | .location l =>
    mkObj ([("msgtype", .str "m.location"), ("body", .str l.body),
      ("geo_uri", .str l.geo_uri)] ++
      optField "info" (l.info.map encodeLocationInfo))
  | .notice n =>
    mkObj ([("msgtype", .str "m.notice"), ("body", .str n.body)] ++
      formattedFields n.formatted ++ relatesField n.relates_to)
  | .serverNotice s =>
    mkObj ([("msgtype", .str "m.server_notice"), ("body", .str s.body),
      ("server_notice_type", .str s.server_notice_type.toStr)] ++
      optStr "admin_contact" s.admin_contact ++
      optField "limit_type" (s.limit_type.map (fun l => .str l.toStr)))
  | .text t =>
    mkObj ([("msgtype", .str "m.text"), ("body", .str t.body)] ++
      formattedFields t.formatted ++ relatesField t.relates_to)
  | .video v =>
    mkObj ([("msgtype", .str "m.video"), ("body", .str v.body)] ++
      optField "info" (v.info.map encodeVideoInfo) ++ optStr "url" v.url ++
      optField "file" (v.file.map EncryptedFile.data))

/-! ### The bundled-annotation summary types (`relation.rs`)

`BundledReaction.origin_server_ts`, `AnnotChunk.next_batch` and
`Relations.annotations` are plain `Option` fields without a
`skip_serializing_if` attribute, so (unlike every optional field above)
serde serializes their absent case as an explicit `null`. -/

/-- `BundledReaction` (`relation.rs` 9-17); `origin_server_ts` is a signed
bounded integer. -/
structure BundledReaction where
  key : String
  origin_server_ts : Option Int
  count : Nat

/-- `BundledAnnotation` (`relation.rs` 20-26), externally discriminated by
the `type` field. -/
inductive BundledAnnot where
  | reaction (r : BundledReaction)

/-- `AnnotationChunk` (`relation.rs` 29-35). -/
structure AnnotChunk where
  chunk : List BundledAnnot
  next_batch : Option String

/-- `Relations` (`relation.rs` 38-43); the single field `annotation` is
serialized under the key `m.annotation`. -/
structure Relations where
  annotations : Option AnnotChunk

/-- Serialization of a nullable field (no `skip_serializing_if`): an
absent value is written as an explicit `null` key. -/
def nullableField (k : String) (o : Option Json) : List (String × Json) :=
  match o with
  | none => [(k, .null)]
  | some v => [(k, v)]

/-- Serialization of `BundledReaction`. -/
def encodeBundledReaction (r : BundledReaction) : Json :=
  mkObj ([("key", .str r.key)] ++
    nullableField "origin_server_ts" (r.origin_server_ts.map Json.num) ++
    [("count", .num (Int.ofNat r.count))])

/-- Serialization of `BundledAnnotation` (tagged by `type`). -/
def encodeBundledAnnot (a : BundledAnnot) : Json :=
  match a with
  | .reaction r =>
    match encodeBundledReaction r with
    | .obj fs => Json.obj (sortFields (("type", .str "m.reaction") :: fs))
    | v => v

/-- Serialization of `AnnotationChunk`. -/
def encodeAnnotChunk (c : AnnotChunk) : Json :=
  mkObj ([("chunk", .arr (c.chunk.map encodeBundledAnnot))] ++
    nullableField "next_batch" (c.next_batch.map Json.str))

/-- Serialization of `Relations`. -/
def encodeRelations (r : Relations) : Json :=
  mkObj (nullableField "m.annotation" (r.annotations.map encodeAnnotChunk))

/-! ### Decoding (the serde `Deserialize` derives)

Required fields fail when missing or ill-typed; optional (`Option`) fields
default to absent when the key is missing or bound to `null`, and fail when
bound to an ill-typed value. Unknown keys of a plain struct are ignored;
for the structs with a flattened `Option<FormattedBody>`, the keys not
consumed by a declared field are buffered, and the flattened option is
absent exactly when that buffer is empty. -/

/-- A required string field, given the looked-up binding. -/
def reqStrV (k : String) (v : Option Json) : Except SchemaError String :=
  match v with
  | none => .error (.missingField k)
  | some (.str s) => .ok s
  | some _ => .error (.invalidField k)

/-- A required string field. -/
def reqStrF (fs : List (String × Json)) (k : String) :
    Except SchemaError String :=
  reqStrV k (lookupField fs k)

/-- An optional string field, given the looked-up binding. -/
def optStrV (k : String) (v : Option Json) :
    Except SchemaError (Option String) :=
  match v with
  | none => .ok none
  | some .null => .ok none
  | some (.str s) => .ok (some s)
  | some _ => .error (.invalidField k)

/-- An optional string field. -/
def optStrF (fs : List (String × Json)) (k : String) :
    Except SchemaError (Option String) :=
  optStrV k (lookupField fs k)

/-- An optional unsigned-integer field, given the looked-up binding. -/
def optNatV (k : String) (v : Option Json) :
    Except SchemaError (Option Nat) :=
  match v with
  | none => .ok none
  | some .null => .ok none
  | some (.num (.ofNat m)) => .ok (some m)
  | some _ => .error (.invalidField k)

/-- An optional unsigned-integer field. -/
def optNatF (fs : List (String × Json)) (k : String) :
    Except SchemaError (Option Nat) :=
  optNatV k (lookupField fs k)

/-- An optional opaque-JSON field, given the looked-up binding. -/
def optJsonV (v : Option Json) : Except SchemaError (Option Json) :=
  match v with
  | none => .ok none
  | some v => if isNull v then .ok none else .ok (some v)

/-- An optional field consumed as opaque JSON. -/
def optJsonF (fs : List (String × Json)) (k : String) :
    Except SchemaError (Option Json) :=
  optJsonV (lookupField fs k)

/-- The optional relation field, given the looked-up binding, decoded
through the wire enum. -/
def optRelV (v : Option Json) : Except SchemaError (Option Relation) :=
  match v with
  | none => .ok none
  | some v => if isNull v then .ok none else .ok (some (decodeRelation v))

/-- The optional `m.relates_to` field, decoded through the wire enum. -/
def optRelF (fs : List (String × Json)) (k : String) :
    Except SchemaError (Option Relation) :=
  optRelV (lookupField fs k)

/-- Keys left for the flatten buffer: the bindings not consumed by a
declared field. -/
def leftoverOf (fs : List (String × Json)) (consumed : List String) :
    List (String × Json) :=
  fs.filter (fun kv => !consumed.contains kv.1)

/-- A flattened `Option<FormattedBody>`: absent when no buffered keys
remain; otherwise the inner struct is attempted on the buffered keys, and
an inner failure (missing or ill-typed `format`/`formatted_body`) is
swallowed into absence — serde's flatten deserializes the option through
its untagged-option path, which maps an inner error to `None`. -/
def parseFormattedOpt (leftover : List (String × Json)) :
    Except SchemaError (Option FormattedBody) :=
  match leftover with
  | [] => .ok none
  | _ =>
    match lookupField leftover "format", lookupField leftover "formatted_body" with
    | some (.str f), some (.str b) => .ok (some ⟨MessageFormat.fromStr f, b⟩)
    | _, _ => .ok none

/-- Deserialization of `AudioInfo`. -/
def parseAudioInfo (v : Json) : Except SchemaError AudioInfo :=
  match v with
  | .obj fs =>
    (optNatF fs "duration").bind fun duration =>
    (optStrF fs "mimetype").bind fun mimetype =>
    (optNatF fs "size").bind fun size =>
    .ok ⟨duration, mimetype, size⟩
  | _ => .error (.invalidField "info")

/-- Deserialization of `FileInfo`. -/
def parseFileInfo (v : Json) : Except SchemaError FileInfo :=
  match v with
  | .obj fs =>
    (optStrF fs "mimetype").bind fun mimetype =>
    (optNatF fs "size").bind fun size =>
    (optJsonF fs "thumbnail_info").bind fun ti =>
    (optStrF fs "thumbnail_url").bind fun tu =>
    (optJsonF fs "thumbnail_file").bind fun tf =>
    .ok ⟨mimetype, size, ti.map ThumbnailInfo.mk, tu, tf.map EncryptedFile.mk⟩
  | _ => .error (.invalidField "info")

/-- Deserialization of `LocationInfo`. -/
def parseLocationInfo (v : Json) : Except SchemaError LocationInfo :=
  match v with
  | .obj fs =>
    (optJsonF fs "thumbnail_info").bind fun ti =>
    (optStrF fs "thumbnail_url").bind fun tu =>
    (optJsonF fs "thumbnail_file").bind fun tf =>
    .ok ⟨ti.map ThumbnailInfo.mk, tu, tf.map EncryptedFile.mk⟩
  | _ => .error (.invalidField "info")

/-- Deserialization of `VideoInfo`. -/
def parseVideoInfo (v : Json) : Except SchemaError VideoInfo :=
  match v with
  | .obj fs =>
    (optNatF fs "duration").bind fun duration =>
    (optNatF fs "h").bind fun height =>
    (optNatF fs "w").bind fun width =>
    (optStrF fs "mimetype").bind fun mimetype =>
    (optNatF fs "size").bind fun size =>
    (optJsonF fs "thumbnail_info").bind fun ti =>
    (optStrF fs "thumbnail_url").bind fun tu =>
    (optJsonF fs "thumbnail_file").bind fun tf =>
    .ok ⟨duration, height, width, mimetype, size, ti.map ThumbnailInfo.mk, tu,
      tf.map EncryptedFile.mk⟩
  | _ => .error (.invalidField "info")

/-- An optional field holding a parsed sub-structure, given the looked-up
binding. -/
def optParsedV (v : Option Json) (p : Json → Except SchemaError α) :
    Except SchemaError (Option α) :=
  match v with
  | none => .ok none
  | some v => if isNull v then .ok none else (p v).map some

/-- An optional field holding a parsed sub-structure. -/
def optParsedF (fs : List (String × Json)) (k : String)
    (p : Json → Except SchemaError α) : Except SchemaError (Option α) :=
  optParsedV (lookupField fs k) p

/-- Deserialization of `AudioMessageEventContent`. -/
def parseAudio (fs : List (String × Json)) :
    Except SchemaError AudioMessageEventContent :=
  (reqStrF fs "body").bind fun body =>
  (optParsedF fs "info" parseAudioInfo).bind fun info =>
  (optStrF fs "url").bind fun url =>
  (optJsonF fs "file").bind fun file =>
  .ok ⟨body, info, url, file.map EncryptedFile.mk⟩

/-- Deserialization of `EmoteMessageEventContent`. -/
def parseEmote (fs : List (String × Json)) :
    Except SchemaError EmoteMessageEventContent :=
  (reqStrF fs "body").bind fun body =>
  (parseFormattedOpt (leftoverOf fs ["body"])).bind fun formatted =>
  .ok ⟨body, formatted⟩

/-- Deserialization of `FileMessageEventContent`. -/
def parseFile (fs : List (String × Json)) :
    Except SchemaError FileMessageEventContent :=
  (reqStrF fs "body").bind fun body =>
  (optStrF fs "filename").bind fun filename =>
  (optParsedF fs "info" parseFileInfo).bind fun info =>
  (optStrF fs "url").bind fun url =>
  (optJsonF fs "file").bind fun file =>
  .ok ⟨body, filename, info, url, file.map EncryptedFile.mk⟩

/-- Deserialization of `ImageMessageEventContent`. -/
def parseImage (fs : List (String × Json)) :
    Except SchemaError ImageMessageEventContent :=
  (reqStrF fs "body").bind fun body =>
  (optJsonF fs "info").bind fun info =>
  (optStrF fs "url").bind fun url =>
  (optJsonF fs "file").bind fun file =>
  .ok ⟨body, info.map ImageInfo.mk, url, file.map EncryptedFile.mk⟩

/-- Deserialization of `LocationMessageEventContent`: `geo_uri` is a
required field. -/
def parseLocation (fs : List (String × Json)) :
    Except SchemaError LocationMessageEventContent :=
  (reqStrF fs "body").bind fun body =>
  (reqStrF fs "geo_uri").bind fun geo_uri =>
  (optParsedF fs "info" parseLocationInfo).bind fun info =>
  .ok ⟨body, geo_uri, info⟩

/-- Deserialization of `NoticeMessageEventContent`. -/
def parseNotice (fs : List (String × Json)) :
    Except SchemaError NoticeMessageEventContent :=
  (reqStrF fs "body").bind fun body =>
  (optRelF fs "m.relates_to").bind fun relates_to =>
  (parseFormattedOpt (leftoverOf fs ["body", "m.relates_to"])).bind
    fun formatted =>
  .ok ⟨body, formatted, relates_to⟩

/-- Deserialization of `ServerNoticeMessageEventContent`. -/
def parseServerNotice (fs : List (String × Json)) :
    Except SchemaError ServerNoticeMessageEventContent :=
  (reqStrF fs "body").bind fun body =>
  (reqStrF fs "server_notice_type").bind fun snt =>
  (optStrF fs "admin_contact").bind fun admin_contact =>
  (optStrF fs "limit_type").bind fun limit_type =>
  .ok ⟨body, ServerNoticeType.fromStr snt, admin_contact,
    limit_type.map LimitType.fromStr⟩

/-- Deserialization of `TextMessageEventContent`. -/
def parseText (fs : List (String × Json)) :
    Except SchemaError TextMessageEventContent :=
  (reqStrF fs "body").bind fun body =>
  (optRelF fs "m.relates_to").bind fun relates_to =>
  (parseFormattedOpt (leftoverOf fs ["body", "m.relates_to"])).bind
    fun formatted =>
  .ok ⟨body, formatted, relates_to⟩

/-- Deserialization of `VideoMessageEventContent`. -/
def parseVideo (fs : List (String × Json)) :
    Except SchemaError VideoMessageEventContent :=
  (reqStrF fs "body").bind fun body =>
  (optParsedF fs "info" parseVideoInfo).bind fun info =>
  (optStrF fs "url").bind fun url =>
  (optJsonF fs "file").bind fun file =>
  .ok ⟨body, info, url, file.map EncryptedFile.mk⟩

/-- Drop the consumed discriminator binding before parsing a variant's
fields (the internally-tagged deserializer removes the tag entry from the
buffered content). -/
def stripTag (fs : List (String × Json)) : List (String × Json) :=
  fs.filter fun kv => kv.1 != "msgtype"

/-- Deserialization of the content union: the input must be an object, the
`msgtype` discriminator must be present and a string; a known tag selects
its variant's parser (whose failure is a hard error), an unknown tag is an
error (the enum of `room/message.rs` 25-65 has no fallback variant). -/
def decodeContent (j : Json) : Except SchemaError MessageEventContent :=
  match j with
  | .obj fs =>
    match lookupField fs "msgtype" with
    | none => .error .missingTag
    | some (.str tag) =>
      let rest := stripTag fs
      if tag = "m.audio" then (parseAudio rest).map .audio
      else if tag = "m.emote" then (parseEmote rest).map .emote
      else if tag = "m.file" then (parseFile rest).map .file
      else if tag = "m.image" then (parseImage rest).map .image
      else if tag = "m.location" then (parseLocation rest).map .location
      else if tag = "m.notice" then (parseNotice rest).map .notice
      else if tag = "m.server_notice" then
        (parseServerNotice rest).map .serverNotice
      else if tag = "m.text" then (parseText rest).map .text
      else if tag = "m.video" then (parseVideo rest).map .video
      else .error (.unknownTag tag)
    | some _ => .error .tagNotString
  | _ => .error .notAnObject

/-- The nine known `msgtype` tags. -/
def knownTags : List String :=
  ["m.audio", "m.emote", "m.file", "m.image", "m.location", "m.notice",
   "m.server_notice", "m.text", "m.video"]

/-- The value bound to key `k` of an encoded JSON object (`none` both for
an absent key and for a non-object, so `= none` states key absence). -/
def jsonLookup (j : Json) (k : String) : Option Json :=
  match j with
  | .obj fs => lookupField fs k
  | _ => none

/-! ### Well-formed values

A value is well-formed when it is reachable through the module's public
constructors and decoding: opaque external blocks are the (non-`null`)
JSON their serializers produce, the hidden string-enum catch-alls do not
shadow a known tag, and a `custom` relation does not hold a payload that
recognition would classify as a known shape. -/

/-- Well-formedness of an opaque `EncryptedFile` block. -/
def wfEncFile (f : EncryptedFile) : Bool := !isNull f.data

/-- Well-formedness of an opaque `ImageInfo` block. -/
def wfImageInfo (i : ImageInfo) : Bool := !isNull i.data

/-- Well-formedness of an opaque `ThumbnailInfo` block. -/
def wfThumbInfo (t : ThumbnailInfo) : Bool := !isNull t.data

/-- Well-formedness of a `FileInfo` value. -/
def wfFileInfo (i : FileInfo) : Bool :=
  i.thumbnail_info.all wfThumbInfo && i.thumbnail_file.all wfEncFile

/-- Well-formedness of a `LocationInfo` value. -/
def wfLocationInfo (i : LocationInfo) : Bool :=
  i.thumbnail_info.all wfThumbInfo && i.thumbnail_file.all wfEncFile

/-- Well-formedness of a `VideoInfo` value. -/
def wfVideoInfo (i : VideoInfo) : Bool :=
  i.thumbnail_info.all wfThumbInfo && i.thumbnail_file.all wfEncFile

/-- Well-formedness of a flattened optional formatted body. -/
def wfFormatted (o : Option FormattedBody) : Bool :=
  o.all fun fb => fb.format.wf

/-- Well-formedness of a content union value. -/
def wfContent (c : MessageEventContent) : Bool :=
  match c with
  | .audio a => a.file.all wfEncFile
  | .emote e => wfFormatted e.formatted
  | .file f => f.info.all wfFileInfo && f.file.all wfEncFile
  | .image i => i.info.all wfImageInfo && i.file.all wfEncFile
  | .location l => l.info.all wfLocationInfo
  | .notice n => wfFormatted n.formatted && n.relates_to.all wfRelation
  | .serverNotice s =>
    s.server_notice_type.wf && s.limit_type.all LimitType.wf
  | .text t => wfFormatted t.formatted && t.relates_to.all wfRelation
  | .video v => v.info.all wfVideoInfo && v.file.all wfEncFile

/-! ### Lookup infrastructure

Field lookup commutes with key-sorting, filtering and concatenation; these
lemmas let round-trip proofs treat each field of an encoded object
independently. -/

@[simp]
theorem lookupField_cons (kv : String × Json) (rest : List (String × Json))
    (k : String) :
    lookupField (kv :: rest) k =
      if kv.1 = k then some kv.2 else lookupField rest k := by
  cases kv; rfl

@[simp]
theorem lookupField_append (l1 l2 : List (String × Json)) (k : String) :
    lookupField (l1 ++ l2) k = (lookupField l1 k).or (lookupField l2 k) := by
  induction l1 with
  | nil => simp [lookupField]
  | cons kv rest ih =>
    rw [List.cons_append, lookupField_cons, lookupField_cons]
    by_cases h : kv.1 = k <;> simp [h, ih]

theorem lookup_insertField (kv : String × Json) (l : List (String × Json))
    (k : String) :
    lookupField (insertField kv l) k =
      if kv.1 = k then some kv.2 else lookupField l k := by
  induction l with
  | nil => simp [insertField, lookupField_cons, lookupField]
  | cons kv2 rest ih =>
    simp only [insertField]
    split
    · rw [lookupField_cons]
    · split
      · rename_i hlt heq
        rw [lookupField_cons, lookupField_cons]
        by_cases h3 : kv.1 = k
        · simp [h3]
        · simp [h3, heq ▸ h3]
      · rename_i hlt hne
        rw [lookupField_cons, lookupField_cons, ih]
        by_cases h3 : kv.1 = k <;> by_cases h4 : kv2.1 = k <;> simp_all

@[simp]
theorem lookup_sortFields (l : List (String × Json)) (k : String) :
    lookupField (sortFields l) k = lookupField l k := by
  induction l with
  | nil => rfl
  | cons kv rest ih =>
    show lookupField (insertField kv (sortFields rest)) k = _
    rw [lookup_insertField, ih, lookupField_cons]

theorem lookup_filterKey (q : String → Bool) (l : List (String × Json))
    (k : String) :
    lookupField (l.filter fun kv => q kv.1) k =
      if q k then lookupField l k else none := by
  induction l with
  | nil => simp [lookupField]
  | cons kv rest ih =>
    by_cases hq : q kv.1
    · rw [show (kv :: rest).filter (fun kv => q kv.1) =
          kv :: rest.filter (fun kv => q kv.1) by simp [List.filter, hq],
        lookupField_cons, lookupField_cons]
      by_cases he : kv.1 = k
      · simp [he, he ▸ hq]
      · simp [he, ih]
    · rw [show (kv :: rest).filter (fun kv => q kv.1) =
          rest.filter (fun kv => q kv.1) by simp [List.filter, hq],
        ih, lookupField_cons]
      by_cases he : kv.1 = k
      · simp [he, he ▸ hq]
      · simp [he]

@[simp]
theorem lookup_optField (k : String) (o : Option Json) (k2 : String) :
    lookupField (optField k o) k2 = if k = k2 then o else none := by
  cases o <;> simp [optField, lookupField, lookupField_cons]

@[simp]
theorem lookup_optStr (k : String) (o : Option String) (k2 : String) :
    lookupField (optStr k o) k2 = if k = k2 then o.map Json.str else none := by
  simp [optStr, lookup_optField]

@[simp]
theorem lookup_optNum (k : String) (o : Option Nat) (k2 : String) :
    lookupField (optNum k o) k2 =
      if k = k2 then o.map (fun n => Json.num (Int.ofNat n)) else none := by
  simp [optNum, lookup_optField]

@[simp]
theorem lookup_formattedFields (o : Option FormattedBody) (k : String) :
    lookupField (formattedFields o) k =
      if "format" = k then o.map (fun fb => Json.str fb.format.toStr)
      else if "formatted_body" = k then o.map (fun fb => Json.str fb.body)
      else none := by
  cases o <;> simp [formattedFields, lookupField, lookupField_cons]

@[simp]
theorem lookup_stripTag (fs : List (String × Json)) (k : String) :
    lookupField (stripTag fs) k =
      if k != "msgtype" then lookupField fs k else none := by
  simpa [stripTag] using lookup_filterKey (fun s => s != "msgtype") fs k

@[simp]
theorem lookup_leftoverOf (fs : List (String × Json)) (consumed : List String)
    (k : String) :
    lookupField (leftoverOf fs consumed) k =
      if !consumed.contains k then lookupField fs k else none := by
  simpa [leftoverOf] using
    lookup_filterKey (fun s => !consumed.contains s) fs k

/-! ### Field-parser lemmas: a field parser applied to a binding holding
an encoded value recovers the original value. -/

@[simp]
theorem reqStrV_str (k s : String) : reqStrV k (some (.str s)) = .ok s := rfl

@[simp]
theorem optStrV_map (k : String) (o : Option String) :
    optStrV k (o.map Json.str) = .ok o := by
  cases o <;> rfl

@[simp]
theorem optNatV_map (k : String) (o : Option Nat) :
    optNatV k (o.map fun (n : Nat) => Json.num (n : Int)) = .ok o := by
  cases o <;> rfl

@[simp]
theorem encFileMk_data (f : EncryptedFile) :
    EncryptedFile.mk f.data = f := rfl

@[simp]
theorem thumbMk_data (t : ThumbnailInfo) :
    ThumbnailInfo.mk t.data = t := rfl

@[simp]
theorem imageMk_data (i : ImageInfo) :
    ImageInfo.mk i.data = i := rfl

@[simp]
theorem encFile_map_data_mk (o : Option EncryptedFile) :
    (o.map EncryptedFile.data).map EncryptedFile.mk = o := by
  cases o <;> rfl

@[simp]
theorem thumbInfo_map_data_mk (o : Option ThumbnailInfo) :
    (o.map ThumbnailInfo.data).map ThumbnailInfo.mk = o := by
  cases o <;> rfl

@[simp]
theorem imageInfo_map_data_mk (o : Option ImageInfo) :
    (o.map ImageInfo.data).map ImageInfo.mk = o := by
  cases o <;> rfl

@[simp]
theorem encFile_comp_map (o : Option EncryptedFile) :
    Option.map (EncryptedFile.mk ∘ EncryptedFile.data) o = o := by
  cases o <;> rfl

@[simp]
theorem thumbInfo_comp_map (o : Option ThumbnailInfo) :
    Option.map (ThumbnailInfo.mk ∘ ThumbnailInfo.data) o = o := by
  cases o <;> rfl

@[simp]
theorem imageInfo_comp_map (o : Option ImageInfo) :
    Option.map (ImageInfo.mk ∘ ImageInfo.data) o = o := by
  cases o <;> rfl

@[simp]
theorem exceptMap_ok {α β : Type} (f : α → β) (x : α) :
    Except.map f (Except.ok x : Except SchemaError α) = .ok (f x) := rfl

theorem optJsonV_wf {o : Option Json}
    (hn : ∀ v, o = some v → isNull v = false) : optJsonV o = .ok o := by
  cases o with
  | none => rfl
  | some v => simp [optJsonV, hn v rfl]

theorem optParsedV_wf {α : Type} {p : Json → Except SchemaError α}
    {enc : α → Json} {o : Option α}
    (hp : ∀ x, o = some x → p (enc x) = .ok x)
    (hn : ∀ x, o = some x → isNull (enc x) = false) :
    optParsedV (o.map enc) p = .ok o := by
  cases o with
  | none => rfl
  | some x => simp_all [optParsedV, Except.map]

/-! ### Relation codec lemmas -/

theorem jsonToWire_custom_eq (v w : Json)
    (h : jsonToWire v = RelatesToJsonRepr.custom w) : w = v := by
  cases v with
  | obj fs =>
    simp only [jsonToWire] at h
    split at h
    · split at h <;> simp_all
    · split at h <;> try split at h
      all_goals simp_all
  | _ =>
    simp only [jsonToWire] at h
    exact (RelatesToJsonRepr.custom.injEq _ _ ▸ h).symm

theorem wire_of_unrecognized {v : Json} (h : recognizedRel v = false) :
    jsonToWire v = RelatesToJsonRepr.custom v := by
  unfold recognizedRel at h
  cases hj : jsonToWire v with
  | custom w => rw [jsonToWire_custom_eq v w hj]
  | relation r => rw [hj] at h; simp at h
  | reply i => rw [hj] at h; simp at h

theorem decodeRelation_unrecognized {v : Json} (h : recognizedRel v = false) :
    decodeRelation v = Relation.custom v := by
  unfold decodeRelation
  rw [wire_of_unrecognized h]
  rfl

theorem decodeRelation_encodeRelation (r : Relation)
    (h : wfRelation r = true) : decodeRelation (encodeRelation r) = r := by
  cases r with
  | reference x => rfl
  | ann x => rfl
  | replacement x => rfl
  | reply x => rfl
  | custom v =>
    have h2 : recognizedRel v = false := by
      simp [wfRelation] at h; exact h.2
    show decodeRelation v = Relation.custom v
    exact decodeRelation_unrecognized h2

theorem isNull_encodeRelation {r : Relation} (h : wfRelation r = true) :
    isNull (encodeRelation r) = false := by
  cases r <;>
    simp_all [encodeRelation, relationToRepr, wireToJson, mkObj, isNull,
      wfRelation]

theorem optRelV_wf {o : Option Relation}
    (hw : ∀ r, o = some r → wfRelation r = true) :
    optRelV (o.map encodeRelation) = .ok o := by
  cases o with
  | none => rfl
  | some r =>
    have hwr := hw r rfl
    simp [optRelV, isNull_encodeRelation hwr,
      decodeRelation_encodeRelation r hwr]

/-! ### String-enum and formatted-body lemmas -/

theorem mfFromStr_toStr {m : MessageFormat} (h : m.wf = true) :
    MessageFormat.fromStr m.toStr = m := by
  cases m with
  | html => rfl
  | custom s =>
    simp [MessageFormat.wf] at h
    simp [MessageFormat.toStr, MessageFormat.fromStr, h]

theorem sntFromStr_toStr {t : ServerNoticeType}
    (h : t.wf = true) : ServerNoticeType.fromStr t.toStr = t := by
  cases t with
  | usageLimitReached => rfl
  | custom s =>
    simp [ServerNoticeType.wf] at h
    simp [ServerNoticeType.toStr, ServerNoticeType.fromStr, h]

theorem ltFromStr_toStr {t : LimitType} (h : t.wf = true) :
    LimitType.fromStr t.toStr = t := by
  cases t with
  | monthlyActiveUser => rfl
  | custom s =>
    simp [LimitType.wf] at h
    simp [LimitType.toStr, LimitType.fromStr, h]

theorem parseFormatted_encode {o : Option FormattedBody}
    (h : wfFormatted o = true) :
    parseFormattedOpt (formattedFields o) = .ok o := by
  cases o with
  | none => rfl
  | some fb =>
    obtain ⟨mf, b⟩ := fb
    have hw : mf.wf = true := by simpa [wfFormatted, Option.all] using h
    simp [formattedFields, parseFormattedOpt, lookupField,
      mfFromStr_toStr hw]

/-! ### Round-trip lemmas for the sub-structures -/

theorem encFileData_notNull {file : Option EncryptedFile}
    (h : file.all wfEncFile = true) :
    ∀ v, file.map EncryptedFile.data = some v → isNull v = false := by
  cases file <;> simp_all [wfEncFile, Option.all]

theorem thumbData_notNull {o : Option ThumbnailInfo}
    (h : o.all wfThumbInfo = true) :
    ∀ v, o.map ThumbnailInfo.data = some v → isNull v = false := by
  cases o <;> simp_all [wfThumbInfo, Option.all]

theorem imageData_notNull {o : Option ImageInfo}
    (h : o.all wfImageInfo = true) :
    ∀ v, o.map ImageInfo.data = some v → isNull v = false := by
  cases o <;> simp_all [wfImageInfo, Option.all]

theorem parseAudioInfo_encode (i : AudioInfo) :
    parseAudioInfo (encodeAudioInfo i) = .ok i := by
  obtain ⟨d, m, s⟩ := i
  simp [encodeAudioInfo, mkObj, parseAudioInfo, optNatF, optStrF, Except.bind]

theorem parseFileInfo_encode (i : FileInfo) (h : wfFileInfo i = true) :
    parseFileInfo (encodeFileInfo i) = .ok i := by
  obtain ⟨m, s, ti, tu, tf⟩ := i
  simp only [wfFileInfo, Bool.and_eq_true] at h
  have hti : optJsonV (ti.map ThumbnailInfo.data) =
      .ok (ti.map ThumbnailInfo.data) := optJsonV_wf (thumbData_notNull h.1)
  have htf : optJsonV (tf.map EncryptedFile.data) =
      .ok (tf.map EncryptedFile.data) := optJsonV_wf (encFileData_notNull h.2)
  simp [encodeFileInfo, mkObj, parseFileInfo, optStrF, optNatF, optJsonF,
    hti, htf, Except.bind]

theorem parseLocationInfo_encode (i : LocationInfo)
    (h : wfLocationInfo i = true) :
    parseLocationInfo (encodeLocationInfo i) = .ok i := by
  obtain ⟨ti, tu, tf⟩ := i
  simp only [wfLocationInfo, Bool.and_eq_true] at h
  have hti : optJsonV (ti.map ThumbnailInfo.data) =
      .ok (ti.map ThumbnailInfo.data) := optJsonV_wf (thumbData_notNull h.1)
  have htf : optJsonV (tf.map EncryptedFile.data) =
      .ok (tf.map EncryptedFile.data) := optJsonV_wf (encFileData_notNull h.2)
  simp [encodeLocationInfo, mkObj, parseLocationInfo, optStrF, optJsonF,
    hti, htf, Except.bind]

theorem parseVideoInfo_encode (i : VideoInfo) (h : wfVideoInfo i = true) :
    parseVideoInfo (encodeVideoInfo i) = .ok i := by
  obtain ⟨d, hh, w, m, s, ti, tu, tf⟩ := i
  simp only [wfVideoInfo, Bool.and_eq_true] at h
  have hti : optJsonV (ti.map ThumbnailInfo.data) =
      .ok (ti.map ThumbnailInfo.data) := optJsonV_wf (thumbData_notNull h.1)
  have htf : optJsonV (tf.map EncryptedFile.data) =
      .ok (tf.map EncryptedFile.data) := optJsonV_wf (encFileData_notNull h.2)
  simp [encodeVideoInfo, mkObj, parseVideoInfo, optStrF, optNatF, optJsonF,
    hti, htf, Except.bind]

/-! ### Round-trip lemmas for the content variants -/

theorem content_rt_audio (a : AudioMessageEventContent)
    (h : wfContent (.audio a) = true) :
    decodeContent (encodeContent (.audio a)) = .ok (.audio a) := by
  obtain ⟨b, info, url, file⟩ := a
  have hf : Option.all wfEncFile file = true := by
    simpa [wfContent] using h
  have hfile : optJsonV (file.map EncryptedFile.data) =
      .ok (file.map EncryptedFile.data) := optJsonV_wf (encFileData_notNull hf)
  have hinfo : optParsedV (info.map encodeAudioInfo) parseAudioInfo =
      .ok info :=
    optParsedV_wf (fun x _ => parseAudioInfo_encode x)
      (fun x _ => by simp [encodeAudioInfo, mkObj, isNull])
  simp [encodeContent, decodeContent, mkObj, parseAudio, reqStrF, optStrF,
    optNatF, optJsonF, optParsedF, hfile, hinfo, Except.bind]

theorem content_rt_emote (e : EmoteMessageEventContent)
    (h : wfContent (.emote e) = true) :
    decodeContent (encodeContent (.emote e)) = .ok (.emote e) := by
  obtain ⟨b, fmt⟩ := e
  cases fmt with
  | none => rfl
  | some fb =>
    obtain ⟨mf, b2⟩ := fb
    have hw : mf.wf = true := by
      simpa [wfContent, wfFormatted, Option.all] using h
    simp +decide [encodeContent, decodeContent, mkObj, parseEmote, reqStrF,
      parseFormattedOpt, leftoverOf, stripTag, sortFields, insertField,
      keyLt, charsLt, formattedFields, optField, lookupField, List.filter,
      List.foldr, Except.bind, mfFromStr_toStr hw]

theorem content_rt_file (f : FileMessageEventContent)
    (h : wfContent (.file f) = true) :
    decodeContent (encodeContent (.file f)) = .ok (.file f) := by
  obtain ⟨b, fn, info, url, file⟩ := f
  simp only [wfContent, Bool.and_eq_true] at h
  have hfile : optJsonV (file.map EncryptedFile.data) =
      .ok (file.map EncryptedFile.data) :=
    optJsonV_wf (encFileData_notNull h.2)
  have hinfo : optParsedV (info.map encodeFileInfo) parseFileInfo =
      .ok info :=
    optParsedV_wf
      (fun x hx => parseFileInfo_encode x
        (by rw [hx] at h; simpa [Option.all] using h.1))
      (fun x _ => by simp [encodeFileInfo, mkObj, isNull])
  simp [encodeContent, decodeContent, mkObj, parseFile, reqStrF, optStrF,
    optNatF, optJsonF, optParsedF, hfile, hinfo, Except.bind]

theorem content_rt_image (i : ImageMessageEventContent)
    (h : wfContent (.image i) = true) :
    decodeContent (encodeContent (.image i)) = .ok (.image i) := by
  obtain ⟨b, info, url, file⟩ := i
  simp only [wfContent, Bool.and_eq_true] at h
  have hfile : optJsonV (file.map EncryptedFile.data) =
      .ok (file.map EncryptedFile.data) :=
    optJsonV_wf (encFileData_notNull h.2)
  have hinfo : optJsonV (info.map ImageInfo.data) =
      .ok (info.map ImageInfo.data) :=
    optJsonV_wf (imageData_notNull h.1)
  simp [encodeContent, decodeContent, mkObj, parseImage, reqStrF, optStrF,
    optNatF, optJsonF, hfile, hinfo, Except.bind]

theorem content_rt_location (l : LocationMessageEventContent)
    (h : wfContent (.location l) = true) :
    decodeContent (encodeContent (.location l)) = .ok (.location l) := by
  obtain ⟨b, g, info⟩ := l
  have hinfo : optParsedV (info.map encodeLocationInfo) parseLocationInfo =
      .ok info :=
    optParsedV_wf
      (fun x hx => parseLocationInfo_encode x
        (by rw [hx] at h; simpa [wfContent, Option.all] using h))
      (fun x _ => by simp [encodeLocationInfo, mkObj, isNull])
  simp [encodeContent, decodeContent, mkObj, parseLocation, reqStrF, optStrF,
    optParsedF, hinfo, Except.bind]

theorem content_rt_notice (n : NoticeMessageEventContent)
    (h : wfContent (.notice n) = true) :
    decodeContent (encodeContent (.notice n)) = .ok (.notice n) := by
  obtain ⟨b, fmt, rel⟩ := n
  simp only [wfContent, Bool.and_eq_true] at h
  cases fmt with
  | none =>
    cases rel with
    | none => rfl
    | some r =>
      have hwr : wfRelation r = true := by
        simpa [Option.all] using h.2
      simp +decide [encodeContent, decodeContent, mkObj, parseNotice, reqStrF,
        optRelF, optRelV, parseFormattedOpt, leftoverOf, stripTag, sortFields,
        insertField, keyLt, charsLt, formattedFields, relatesField, optField,
        lookupField, List.filter, List.foldr, Except.bind,
        isNull_encodeRelation hwr, decodeRelation_encodeRelation r hwr]
  | some fb =>
    obtain ⟨mf, b2⟩ := fb
    have hw : mf.wf = true := by
      simpa [wfFormatted, Option.all] using h.1
    cases rel with
    | none =>
      simp +decide [encodeContent, decodeContent, mkObj, parseNotice, reqStrF,
        optRelF, optRelV, parseFormattedOpt, leftoverOf, stripTag, sortFields,
        insertField, keyLt, charsLt, formattedFields, relatesField, optField,
        lookupField, List.filter, List.foldr, Except.bind,
        mfFromStr_toStr hw]
    | some r =>
      have hwr : wfRelation r = true := by
        simpa [Option.all] using h.2
      simp +decide [encodeContent, decodeContent, mkObj, parseNotice, reqStrF,
        optRelF, optRelV, parseFormattedOpt, leftoverOf, stripTag, sortFields,
        insertField, keyLt, charsLt, formattedFields, relatesField, optField,
        lookupField, List.filter, List.foldr, Except.bind,
        mfFromStr_toStr hw,
        isNull_encodeRelation hwr, decodeRelation_encodeRelation r hwr]

theorem content_rt_serverNotice (s : ServerNoticeMessageEventContent)
    (h : wfContent (.serverNotice s) = true) :
    decodeContent (encodeContent (.serverNotice s)) =
      .ok (.serverNotice s) := by
  obtain ⟨b, snt, ac, lt⟩ := s
  simp only [wfContent, Bool.and_eq_true] at h
  have hlook : optStrV "limit_type" (lt.map fun l => Json.str l.toStr) =
      .ok (lt.map LimitType.toStr) := by cases lt <;> rfl
  have hlt : (lt.map LimitType.toStr).map LimitType.fromStr = lt := by
    cases lt with
    | none => rfl
    | some l =>
      have hwl : l.wf = true := by simpa [Option.all] using h.2
      simp [ltFromStr_toStr hwl]
  simp [encodeContent, decodeContent, mkObj, parseServerNotice, reqStrF,
    optStrF, hlook, hlt, Except.bind, sntFromStr_toStr h.1]

theorem content_rt_text (t : TextMessageEventContent)
    (h : wfContent (.text t) = true) :
    decodeContent (encodeContent (.text t)) = .ok (.text t) := by
  obtain ⟨b, fmt, rel⟩ := t
  simp only [wfContent, Bool.and_eq_true] at h
  cases fmt with
  | none =>
    cases rel with
    | none => rfl
    | some r =>
      have hwr : wfRelation r = true := by
        simpa [Option.all] using h.2
      simp +decide [encodeContent, decodeContent, mkObj, parseText, reqStrF,
        optRelF, optRelV, parseFormattedOpt, leftoverOf, stripTag, sortFields,
        insertField, keyLt, charsLt, formattedFields, relatesField, optField,
        lookupField, List.filter, List.foldr, Except.bind,
        isNull_encodeRelation hwr, decodeRelation_encodeRelation r hwr]
  | some fb =>
    obtain ⟨mf, b2⟩ := fb
    have hw : mf.wf = true := by
      simpa [wfFormatted, Option.all] using h.1
    cases rel with
    | none =>
      simp +decide [encodeContent, decodeContent, mkObj, parseText, reqStrF,
        optRelF, optRelV, parseFormattedOpt, leftoverOf, stripTag, sortFields,
        insertField, keyLt, charsLt, formattedFields, relatesField, optField,
        lookupField, List.filter, List.foldr, Except.bind,
        mfFromStr_toStr hw]
    | some r =>
      have hwr : wfRelation r = true := by
        simpa [Option.all] using h.2
      simp +decide [encodeContent, decodeContent, mkObj, parseText, reqStrF,
        optRelF, optRelV, parseFormattedOpt, leftoverOf, stripTag, sortFields,
        insertField, keyLt, charsLt, formattedFields, relatesField, optField,
        lookupField, List.filter, List.foldr, Except.bind,
        mfFromStr_toStr hw,
        isNull_encodeRelation hwr, decodeRelation_encodeRelation r hwr]

theorem content_rt_video (v : VideoMessageEventContent)
    (h : wfContent (.video v) = true) :
    decodeContent (encodeContent (.video v)) = .ok (.video v) := by
  obtain ⟨b, info, url, file⟩ := v
  simp only [wfContent, Bool.and_eq_true] at h
  have hfile : optJsonV (file.map EncryptedFile.data) =
      .ok (file.map EncryptedFile.data) :=
    optJsonV_wf (encFileData_notNull h.2)
  have hinfo : optParsedV (info.map encodeVideoInfo) parseVideoInfo =
      .ok info :=
    optParsedV_wf
      (fun x hx => parseVideoInfo_encode x
        (by rw [hx] at h; simpa [Option.all] using h.1))
      (fun x _ => by simp [encodeVideoInfo, mkObj, isNull])
  simp [encodeContent, decodeContent, mkObj, parseVideo, reqStrF, optStrF,
    optNatF, optJsonF, optParsedF, hfile, hinfo, Except.bind]

/-! ### Claim theorems -/

/-- C1 (counterexample): decoding a content object whose `msgtype` is not a
known tag does not produce a fallback variant carrying the object — it
fails with an unknown-tag error (the content union of `room/message.rs`
has no `Custom` variant), refuting the claim that such a decode succeeds
and never returns an error. -/
theorem claimC1_counterexample :
    decodeContent (mkObj [("body", .str "x"), ("msgtype", .str "m.pony")]) =
      .error (.unknownTag "m.pony") := rfl

/-- C1 (amended): for every JSON object whose `msgtype` value is a string
outside the nine known tags, decoding the content union fails with an
unknown-tag `SchemaError`; there is no fallback variant. -/
theorem claimC1_amended (fs : List (String × Json)) (tag : String)
    (h : lookupField fs "msgtype" = some (.str tag))
    (h2 : tag ∉ knownTags) :
    decodeContent (.obj fs) = .error (.unknownTag tag) := by
  simp only [knownTags, List.mem_cons, not_or, List.not_mem_nil] at h2
  obtain ⟨n1, n2, n3, n4, n5, n6, n7, n8, n9, -⟩ := h2
  simp [decodeContent, h, n1, n2, n3, n4, n5, n6, n7, n8, n9]

/-- C1 (witness): the amended claim at the concrete unknown tag
`"m.custom.x"`. -/
theorem claimC1_witness :
    decodeContent (.obj [("msgtype", .str "m.custom.x"), ("body", .str "t")]) =
      .error (.unknownTag "m.custom.x") :=
  claimC1_amended _ _ rfl (by decide)

/-- C2 (counterexample): `BundledReaction` does not omit its absent
optional field — `origin_server_ts = None` is serialized as an explicit
`null`-valued key (`relation.rs` has no `skip_serializing_if` on it),
refuting the claim that every serialized type of the module omits absent
optional fields. -/
theorem claimC2_counterexample :
    encodeBundledReaction ⟨"+1", none, 3⟩ =
      Json.obj [("count", .num (Int.ofNat 3)), ("key", .str "+1"),
        ("origin_server_ts", .null)] := rfl

/-- C2 (amended): for every value of every serialized type of
`room/message.rs`, each optional field's key in the encoded object is
bound exactly to the encoding of the field's value — in particular the
key is entirely absent whenever the field is `None`, never present as
`null`; encoding a variant whose only required field is `body` with all
optional fields absent yields exactly `body` and `msgtype`
(`Location`/`ServerNotice` additionally carry only their required
fields). The bundled-annotation summary types of `relation.rs`
(`BundledReaction.origin_server_ts`, `AnnotationChunk.next_batch`,
`Relations.annotation`) do not honor the contract: they serialize an
absent option as a `null`-valued key. -/
theorem claimC2_amended :
    (∀ a : AudioMessageEventContent,
      jsonLookup (encodeContent (.audio a)) "info" =
        a.info.map encodeAudioInfo ∧
      jsonLookup (encodeContent (.audio a)) "url" = a.url.map Json.str ∧
      jsonLookup (encodeContent (.audio a)) "file" =
        a.file.map EncryptedFile.data) ∧
    (∀ i : AudioInfo,
      jsonLookup (encodeAudioInfo i) "duration" =
        i.duration.map (fun (n : Nat) => Json.num (n : Int)) ∧
      jsonLookup (encodeAudioInfo i) "mimetype" =
        i.mimetype.map Json.str ∧
      jsonLookup (encodeAudioInfo i) "size" =
        i.size.map (fun (n : Nat) => Json.num (n : Int))) ∧
    (∀ e : EmoteMessageEventContent,
      jsonLookup (encodeContent (.emote e)) "format" =
        e.formatted.map (fun fb => Json.str fb.format.toStr) ∧
      jsonLookup (encodeContent (.emote e)) "formatted_body" =
        e.formatted.map (fun fb => Json.str fb.body)) ∧
    (∀ f : FileMessageEventContent,
      jsonLookup (encodeContent (.file f)) "filename" =
        f.filename.map Json.str ∧
      jsonLookup (encodeContent (.file f)) "info" =
        f.info.map encodeFileInfo ∧
      jsonLookup (encodeContent (.file f)) "url" = f.url.map Json.str ∧
      jsonLookup (encodeContent (.file f)) "file" =
        f.file.map EncryptedFile.data) ∧
    (∀ i : FileInfo,
      jsonLookup (encodeFileInfo i) "mimetype" = i.mimetype.map Json.str ∧
      jsonLookup (encodeFileInfo i) "size" =
        i.size.map (fun (n : Nat) => Json.num (n : Int)) ∧
      jsonLookup (encodeFileInfo i) "thumbnail_info" =
        i.thumbnail_info.map ThumbnailInfo.data ∧
      jsonLookup (encodeFileInfo i) "thumbnail_url" =
        i.thumbnail_url.map Json.str ∧
      jsonLookup (encodeFileInfo i) "thumbnail_file" =
        i.thumbnail_file.map EncryptedFile.data) ∧
    (∀ i : ImageMessageEventContent,
      jsonLookup (encodeContent (.image i)) "info" =
        i.info.map ImageInfo.data ∧
      jsonLookup (encodeContent (.image i)) "url" = i.url.map Json.str ∧
      jsonLookup (encodeContent (.image i)) "file" =
        i.file.map EncryptedFile.data) ∧
    (∀ l : LocationMessageEventContent,
      jsonLookup (encodeContent (.location l)) "info" =
        l.info.map encodeLocationInfo) ∧
    (∀ i : LocationInfo,
      jsonLookup (encodeLocationInfo i) "thumbnail_info" =
        i.thumbnail_info.map ThumbnailInfo.data ∧
      jsonLookup (encodeLocationInfo i) "thumbnail_url" =
        i.thumbnail_url.map Json.str ∧
      jsonLookup (encodeLocationInfo i) "thumbnail_file" =
        i.thumbnail_file.map EncryptedFile.data) ∧
    (∀ n : NoticeMessageEventContent,
      jsonLookup (encodeContent (.notice n)) "format" =
        n.formatted.map (fun fb => Json.str fb.format.toStr) ∧
      jsonLookup (encodeContent (.notice n)) "formatted_body" =
        n.formatted.map (fun fb => Json.str fb.body) ∧
      jsonLookup (encodeContent (.notice n)) "m.relates_to" =
        n.relates_to.map encodeRelation) ∧
    (∀ s : ServerNoticeMessageEventContent,
      jsonLookup (encodeContent (.serverNotice s)) "admin_contact" =
        s.admin_contact.map Json.str ∧
      jsonLookup (encodeContent (.serverNotice s)) "limit_type" =
        s.limit_type.map (fun l => Json.str l.toStr)) ∧
    (∀ t : TextMessageEventContent,
      jsonLookup (encodeContent (.text t)) "format" =
        t.formatted.map (fun fb => Json.str fb.format.toStr) ∧
      jsonLookup (encodeContent (.text t)) "formatted_body" =
        t.formatted.map (fun fb => Json.str fb.body) ∧
      jsonLookup (encodeContent (.text t)) "m.relates_to" =
        t.relates_to.map encodeRelation) ∧
    (∀ v : VideoMessageEventContent,
      jsonLookup (encodeContent (.video v)) "info" =
        v.info.map encodeVideoInfo ∧
      jsonLookup (encodeContent (.video v)) "url" = v.url.map Json.str ∧
      jsonLookup (encodeContent (.video v)) "file" =
        v.file.map EncryptedFile.data) ∧
    (∀ i : VideoInfo,
      jsonLookup (encodeVideoInfo i) "duration" =
        i.duration.map (fun (n : Nat) => Json.num (n : Int)) ∧
      jsonLookup (encodeVideoInfo i) "h" =
        i.height.map (fun (n : Nat) => Json.num (n : Int)) ∧
      jsonLookup (encodeVideoInfo i) "w" =
        i.width.map (fun (n : Nat) => Json.num (n : Int)) ∧
      jsonLookup (encodeVideoInfo i) "mimetype" =
        i.mimetype.map Json.str ∧
      jsonLookup (encodeVideoInfo i) "size" =
        i.size.map (fun (n : Nat) => Json.num (n : Int)) ∧
      jsonLookup (encodeVideoInfo i) "thumbnail_info" =
        i.thumbnail_info.map ThumbnailInfo.data ∧
      jsonLookup (encodeVideoInfo i) "thumbnail_url" =
        i.thumbnail_url.map Json.str ∧
      jsonLookup (encodeVideoInfo i) "thumbnail_file" =
        i.thumbnail_file.map EncryptedFile.data) ∧
    (∀ b : String, encodeContent (.audio ⟨b, none, none, none⟩) =
      Json.obj [("body", .str b), ("msgtype", .str "m.audio")]) ∧
    (∀ b : String, encodeContent (.emote ⟨b, none⟩) =
      Json.obj [("body", .str b), ("msgtype", .str "m.emote")]) ∧
    (∀ b : String, encodeContent (.file ⟨b, none, none, none, none⟩) =
      Json.obj [("body", .str b), ("msgtype", .str "m.file")]) ∧
    (∀ b : String, encodeContent (.image ⟨b, none, none, none⟩) =
      Json.obj [("body", .str b), ("msgtype", .str "m.image")]) ∧
    (∀ b : String, encodeContent (.notice ⟨b, none, none⟩) =
      Json.obj [("body", .str b), ("msgtype", .str "m.notice")]) ∧
    (∀ b : String, encodeContent (.text ⟨b, none, none⟩) =
      Json.obj [("body", .str b), ("msgtype", .str "m.text")]) ∧
    (∀ b : String, encodeContent (.video ⟨b, none, none, none⟩) =
      Json.obj [("body", .str b), ("msgtype", .str "m.video")]) ∧
    (∀ b g : String, encodeContent (.location ⟨b, g, none⟩) =
      Json.obj [("body", .str b), ("geo_uri", .str g),
        ("msgtype", .str "m.location")]) ∧
    (∀ b : String, ∀ t : ServerNoticeType,
      encodeContent (.serverNotice ⟨b, t, none, none⟩) =
      Json.obj [("body", .str b), ("msgtype", .str "m.server_notice"),
        ("server_notice_type", .str t.toStr)]) ∧
    (∀ k : String, ∀ c : Nat, encodeBundledReaction ⟨k, none, c⟩ =
      Json.obj [("count", .num (Int.ofNat c)), ("key", .str k),
        ("origin_server_ts", .null)]) ∧
    (∀ ch : List BundledAnnot, encodeAnnotChunk ⟨ch, none⟩ =
      Json.obj [("chunk", .arr (ch.map encodeBundledAnnot)),
        ("next_batch", .null)]) ∧
    encodeRelations ⟨none⟩ = Json.obj [("m.annotation", .null)] := by
  refine ⟨?_, ?_, ?_, ?_, ?_, ?_, ?_, ?_, ?_, ?_, ?_, ?_, ?_, ?_, ?_, ?_,
    ?_, ?_, ?_, ?_, ?_, ?_, ?_, ?_, ?_⟩
  all_goals intros
  all_goals repeat' apply And.intro
  all_goals first
    | rfl
    | simp [jsonLookup, encodeContent, mkObj, relatesField,
        encodeAudioInfo, encodeFileInfo, encodeLocationInfo,
        encodeVideoInfo]

/-- C3: decoding the encoding of any well-formed known content variant
yields the variant back (`decode ∘ encode = id`). -/
theorem claimC3_roundtrip (v : MessageEventContent)
    (h : wfContent v = true) :
    decodeContent (encodeContent v) = .ok v := by
  cases v with
  | audio a => exact content_rt_audio a h
  | emote e => exact content_rt_emote e h
  | file f => exact content_rt_file f h
  | image i => exact content_rt_image i h
  | location l => exact content_rt_location l h
  | notice n => exact content_rt_notice n h
  | serverNotice s => exact content_rt_serverNotice s h
  | text t => exact content_rt_text t h
  | video v => exact content_rt_video v h

/-- C3 (witness): the round-trip at a concrete text message carrying a
formatted body and a reply relation. -/
theorem claimC3_witness :
    wfContent (.text ⟨"hi", some ⟨MessageFormat.html, "<em>hi</em>"⟩,
      some (.reply ⟨"$abc:example.com"⟩)⟩) = true ∧
    decodeContent (encodeContent (.text ⟨"hi",
      some ⟨MessageFormat.html, "<em>hi</em>"⟩,
      some (.reply ⟨"$abc:example.com"⟩)⟩)) =
      .ok (.text ⟨"hi", some ⟨MessageFormat.html, "<em>hi</em>"⟩,
        some (.reply ⟨"$abc:example.com"⟩)⟩) :=
  ⟨rfl, claimC3_roundtrip _ rfl⟩

/-- C4: encoding Text content with body `"Hello, World!"` and an HTML
formatted body `"<em>World</em>"` hoists the formatted sub-record's two
fields to top level, yielding exactly the flat object with keys `body`,
`format`, `formatted_body`, `msgtype`; decoding that object folds the two
fields back into the nested `formatted` value. -/
theorem claimC4_formatted_flattening :
    encodeContent (.text ⟨"Hello, World!",
      some ⟨MessageFormat.html, "<em>World</em>"⟩, none⟩) =
      Json.obj [("body", .str "Hello, World!"),
        ("format", .str "org.matrix.custom.html"),
        ("formatted_body", .str "<em>World</em>"),
        ("msgtype", .str "m.text")] ∧
    decodeContent (Json.obj [("body", .str "Hello, World!"),
        ("format", .str "org.matrix.custom.html"),
        ("formatted_body", .str "<em>World</em>"),
        ("msgtype", .str "m.text")]) =
      .ok (.text ⟨"Hello, World!",
        some ⟨MessageFormat.html, "<em>World</em>"⟩, none⟩) :=
  ⟨rfl, rfl⟩

/-- C5: converting a relation from its logical form to its wire form and
back is the identity for every representable value, and an unrecognized
wire shape decodes to `custom` holding the value verbatim and re-encodes
to exactly the original value. -/
theorem claimC5_relation_roundtrip :
    (∀ r : Relation, reprToRelation (relationToRepr r) = r) ∧
    (∀ v : Json, recognizedRel v = false →
      decodeRelation v = .custom v ∧ encodeRelation (decodeRelation v) = v) := by
  constructor
  · intro r; cases r <;> rfl
  · intro v h
    have hd := decodeRelation_unrecognized h
    exact ⟨hd, by rw [hd]; rfl⟩

/-- C5 (witness): the logical-wire-logical identity at a concrete
annotation, and the verbatim preservation of the concrete unrecognized
shape `{"answer": 42}`. -/
theorem claimC5_witness :
    reprToRelation (relationToRepr (.ann ⟨"$e:x.org", "+1"⟩)) =
      Relation.ann ⟨"$e:x.org", "+1"⟩ ∧
    decodeRelation (Json.obj [("answer", .num 42)]) =
      .custom (Json.obj [("answer", .num 42)]) ∧
    encodeRelation (decodeRelation (Json.obj [("answer", .num 42)])) =
      Json.obj [("answer", .num 42)] :=
  ⟨claimC5_relation_roundtrip.1 _,
   (claimC5_relation_roundtrip.2 (Json.obj [("answer", .num 42)]) rfl).1,
   (claimC5_relation_roundtrip.2 (Json.obj [("answer", .num 42)]) rfl).2⟩

/-- C6: a wire relation object carrying both an `m.in_reply_to` key and a
`rel_type` key decodes as `Reply` (when the `m.in_reply_to` payload is
well-shaped) and in no case as an annotation, reference or replacement —
the `m.in_reply_to` check comes first. -/
theorem claimC6_reply_precedence (fs : List (String × Json)) (v w : Json)
    (i : InReplyTo)
    (hin : lookupField fs "m.in_reply_to" = some v)
    (_hrel : lookupField fs "rel_type" = some w) :
    (parseInReplyTo v = some i → decodeRelation (.obj fs) = .reply i) ∧
    (∀ a, decodeRelation (.obj fs) ≠ .ann a) ∧
    (∀ x, decodeRelation (.obj fs) ≠ .reference x) ∧
    (∀ x, decodeRelation (.obj fs) ≠ .replacement x) := by
  have hw : decodeRelation (.obj fs) =
      reprToRelation (match parseInReplyTo v with
        | some i => RelatesToJsonRepr.reply i
        | none => RelatesToJsonRepr.custom (.obj fs)) := by
    unfold decodeRelation
    simp only [jsonToWire]
    rw [hin]
  refine ⟨fun hp => by rw [hw, hp]; rfl, ?_, ?_, ?_⟩ <;>
    (intro x; rw [hw]; cases hpv : parseInReplyTo v <;> simp [reprToRelation])

/-- C6 (witness): the precedence at a concrete malformed object carrying
both a reply key and an annotation-shaped `rel_type`. -/
theorem claimC6_witness :
    decodeRelation (.obj [("m.in_reply_to",
        Json.obj [("event_id", .str "$e:x.org")]),
      ("rel_type", .str "m.annotation"), ("event_id", .str "$e:x.org"),
      ("key", .str "+1")]) = .reply ⟨"$e:x.org"⟩ :=
  (claimC6_reply_precedence
    [("m.in_reply_to", Json.obj [("event_id", .str "$e:x.org")]),
     ("rel_type", .str "m.annotation"), ("event_id", .str "$e:x.org"),
     ("key", .str "+1")]
    (Json.obj [("event_id", .str "$e:x.org")]) (.str "m.annotation")
    ⟨"$e:x.org"⟩ rfl rfl).1 rfl

/-- C7: a recognized `msgtype` never falls back — for each of the nine
known tags, decoding is exactly the matched variant's field parser mapped
into the union, so any failure of that parser (a missing required field or
a wrong field type) surfaces as the decode's `SchemaError`; in particular
an `m.location` object without the required `geo_uri` field fails to
decode, as does an `m.audio` object whose `body` is not a string. -/
theorem claimC7_known_tag_error :
    (∀ fs, lookupField fs "msgtype" = some (.str "m.location") →
      lookupField fs "geo_uri" = none →
      ∃ e, decodeContent (.obj fs) = .error e) ∧
    decodeContent (Json.obj [("body", .num 5),
      ("msgtype", .str "m.audio")]) = .error (.invalidField "body") ∧
    (∀ fs, lookupField fs "msgtype" = some (.str "m.audio") →
      decodeContent (.obj fs) =
        (parseAudio (stripTag fs)).map MessageEventContent.audio ∧
      ∀ e, parseAudio (stripTag fs) = .error e →
        decodeContent (.obj fs) = .error e) ∧
    (∀ fs, lookupField fs "msgtype" = some (.str "m.emote") →
      decodeContent (.obj fs) =
        (parseEmote (stripTag fs)).map MessageEventContent.emote ∧
      ∀ e, parseEmote (stripTag fs) = .error e →
        decodeContent (.obj fs) = .error e) ∧
    (∀ fs, lookupField fs "msgtype" = some (.str "m.file") →
      decodeContent (.obj fs) =
        (parseFile (stripTag fs)).map MessageEventContent.file ∧
      ∀ e, parseFile (stripTag fs) = .error e →
        decodeContent (.obj fs) = .error e) ∧
    (∀ fs, lookupField fs "msgtype" = some (.str "m.image") →
      decodeContent (.obj fs) =
        (parseImage (stripTag fs)).map MessageEventContent.image ∧
      ∀ e, parseImage (stripTag fs) = .error e →
        decodeContent (.obj fs) = .error e) ∧
    (∀ fs, lookupField fs "msgtype" = some (.str "m.location") →
      decodeContent (.obj fs) =
        (parseLocation (stripTag fs)).map MessageEventContent.location ∧
      ∀ e, parseLocation (stripTag fs) = .error e →
        decodeContent (.obj fs) = .error e) ∧
    (∀ fs, lookupField fs "msgtype" = some (.str "m.notice") →
      decodeContent (.obj fs) =
        (parseNotice (stripTag fs)).map MessageEventContent.notice ∧
      ∀ e, parseNotice (stripTag fs) = .error e →
        decodeContent (.obj fs) = .error e) ∧
    (∀ fs, lookupField fs "msgtype" = some (.str "m.server_notice") →
      decodeContent (.obj fs) =
        (parseServerNotice (stripTag fs)).map
          MessageEventContent.serverNotice ∧
      ∀ e, parseServerNotice (stripTag fs) = .error e →
        decodeContent (.obj fs) = .error e) ∧
    (∀ fs, lookupField fs "msgtype" = some (.str "m.text") →
      decodeContent (.obj fs) =
        (parseText (stripTag fs)).map MessageEventContent.text ∧
      ∀ e, parseText (stripTag fs) = .error e →
        decodeContent (.obj fs) = .error e) ∧
    (∀ fs, lookupField fs "msgtype" = some (.str "m.video") →
      decodeContent (.obj fs) =
        (parseVideo (stripTag fs)).map MessageEventContent.video ∧
      ∀ e, parseVideo (stripTag fs) = .error e →
        decodeContent (.obj fs) = .error e) := by
  have disp : ∀ {α : Type} (j : Json) (p : Except SchemaError α)
      (ctor : α → MessageEventContent), decodeContent j = p.map ctor →
      ∀ e, p = .error e → decodeContent j = .error e :=
    fun j p ctor hd e he => by rw [hd, he]; rfl
  refine ⟨?_, rfl, ?_, ?_, ?_, ?_, ?_, ?_, ?_, ?_, ?_⟩
  · intro fs htag hg
    have h1 : decodeContent (.obj fs) =
        (parseLocation (stripTag fs)).map MessageEventContent.location := by
      simp [decodeContent, htag]
    have hgeo : reqStrF (stripTag fs) "geo_uri" =
        .error (.missingField "geo_uri") := by
      simp [reqStrF, hg, reqStrV]
    rw [h1]
    cases hb : reqStrF (stripTag fs) "body" with
    | error e =>
      exact ⟨e, by simp [parseLocation, hb, Except.bind, Except.map]⟩
    | ok b =>
      exact ⟨.missingField "geo_uri",
        by simp [parseLocation, hb, hgeo, Except.bind, Except.map]⟩
  all_goals
    intro fs h
  all_goals
    refine (fun hd => ⟨hd, disp _ _ _ hd⟩) ?_
  all_goals
    simp [decodeContent, h]

/-- C7 (witness): the repository's own failing decode input — a location
message with a `url` but no `geo_uri`. -/
theorem claimC7_witness :
    ∃ e, decodeContent (.obj [("body", .str "test"),
      ("msgtype", .str "m.location"),
      ("url", .str "http://example.com/audio.mp3")]) = .error e :=
  claimC7_known_tag_error.1 [("body", .str "test"),
    ("msgtype", .str "m.location"),
    ("url", .str "http://example.com/audio.mp3")] rfl rfl

/-- C8 (counterexample): a JSON object that has the `msgtype` discriminator
(`m.location`) still fails to decode when a required field is missing, so
"fails only when the input is not an object or lacks the discriminator"
is false. -/
theorem claimC8_counterexample :
    decodeContent (Json.obj [("body", .str "test"),
      ("msgtype", .str "m.location")]) =
      .error (.missingField "geo_uri") := rfl

/-- C8 (amended): decoding fails on a non-object input, on an object
without the `msgtype` discriminator, and on an object whose discriminator
is not a string — but these are not the only failure cases: an unknown
tag and malformed fields under a known tag fail as well. -/
theorem claimC8_amended :
    (∀ j : Json, (∀ fs, j ≠ .obj fs) →
      decodeContent j = .error .notAnObject) ∧
    (∀ fs, lookupField fs "msgtype" = none →
      decodeContent (.obj fs) = .error .missingTag) ∧
    (∀ fs v, lookupField fs "msgtype" = some v → (∀ s, v ≠ .str s) →
      decodeContent (.obj fs) = .error .tagNotString) := by
  refine ⟨?_, ?_, ?_⟩
  · intro j hj
    cases j with
    | obj fs => exact absurd rfl (hj _)
    | _ => rfl
  · intro fs h; simp [decodeContent, h]
  · intro fs v h hs
    cases v with
    | str s => exact absurd rfl (hs s)
    | _ => simp [decodeContent, h]

/-- C8 (witness): the amended claim at concrete inputs — a number, an
empty object, and an object whose `msgtype` is itself a number. -/
theorem claimC8_witness :
    decodeContent (.num 5) = .error .notAnObject ∧
    decodeContent (.obj []) = .error .missingTag ∧
    decodeContent (.obj [("msgtype", .num 3)]) = .error .tagNotString :=
  ⟨claimC8_amended.1 _ (fun _ h => Json.noConfusion h),
   claimC8_amended.2.1 _ rfl,
   claimC8_amended.2.2 _ _ rfl (fun _ h => Json.noConfusion h)⟩

/-- C9: relation decoding is total by construction (`decodeRelation` is a
plain function with no error result); any unrecognized shape becomes
`custom` holding the value unchanged, and in particular
`{"foo":"bar"}` decodes to `custom {"foo":"bar"}` and re-encodes to
exactly `{"foo":"bar"}`. -/
theorem claimC9_custom_preservation :
    (∀ v : Json, recognizedRel v = false → decodeRelation v = .custom v) ∧
    decodeRelation (mkObj [("foo", .str "bar")]) =
      .custom (mkObj [("foo", .str "bar")]) ∧
    encodeRelation (.custom (mkObj [("foo", .str "bar")])) =
      mkObj [("foo", .str "bar")] :=
  ⟨fun _ h => decodeRelation_unrecognized h, rfl, rfl⟩

/-- C9 (witness): the unrecognized-shape clause at the concrete shape
`{"baz": true}`. -/
theorem claimC9_witness :
    decodeRelation (Json.obj [("baz", .bool true)]) =
      .custom (Json.obj [("baz", .bool true)]) :=
  claimC9_custom_preservation.1 _ rfl

/-- C10: the deprecated constructor `new_plain` returns exactly what
`plain` returns — a text content with the given body and no formatted
body and no relation. -/
theorem claimC10_new_plain (body : String) :
    TextMessageEventContent.new_plain body =
      TextMessageEventContent.plain body ∧
    TextMessageEventContent.plain body = ⟨body, none, none⟩ :=
  ⟨rfl, rfl⟩

end RumaEvents
